import Mathlib

/-!
Shallow embedding of the Japan suicide-statistics data pipeline.

The embedding translates the Python sources into executable Lean definitions:

* `src/ml/assumptions.py` — the constant assumption tables and the policy
  scenario loss functions (`baseline_loss`, `reduced_loss`).
* `src/ml/suicide_prevention_report.py` — `calculate_economic_impact`, the
  per-bracket economic metric calculator.
* `src/processing/compile_master_csv.py` — `japanese_year_to_western`,
  `age_mapping`, header-row detection, the wide-to-long melt and numeric
  cleanup, and the per-file compilation routine.
* `src/ml/convert_plotly_viz.py` — the `age_map` bracket dictionary and the
  map-then-dropna normalization used before aggregation.
* `src/processing/pdf_to_csv.py` — the batch driver that extracts tables
  from a list of PDF files, isolating per-file failures.

Modelling conventions: pandas float64 cells are modelled by `PFloat`
(an exact rational together with the two infinities and NaN; the sources
only exercise finite/NaN inputs of the modelled operations, and the
division-by-zero and NaN-propagation branches follow IEEE-754/numpy).
Exact rationals stand in for Python floats, so all arithmetic identities
are stated in exact arithmetic.  Python exceptions are modelled with
`Except String`: a `.error` value marks an uncaught exception.  A missing
CSV cell (pandas NaN after read) is modelled as the empty string.
Python's `str.strip` is modelled by removing leading/trailing whitespace
characters, `int(...)` by an optional-sign ASCII-digit parse, and regex
`\D` removal by filtering to ASCII digits (the repository's inputs only
contain ASCII digits in year labels).
-/

namespace SuicidePipeline

/-! ## Pandas/numpy float values -/

/-- A pandas scalar: a finite value (exact rational), `+inf`, `-inf` or NaN. -/
inductive PFloat where
  | num (q : ℚ)
  | pinf
  | ninf
  | nan
deriving DecidableEq, Repr

/-- numpy float division: finite nonzero divisor divides exactly; a zero
divisor gives a signed infinity (NaN for 0/0); NaN propagates. -/
def PFloat.div : PFloat → PFloat → PFloat
  | _, .nan => .nan
  | .nan, _ => .nan
  | .num x, .num y =>
    if y ≠ 0 then .num (x / y)
    else if 0 < x then .pinf
    else if x < 0 then .ninf
    else .nan
  | .num _, .pinf => .num 0
  | .num _, .ninf => .num 0
  | .pinf, .num y => if 0 ≤ y then .pinf else .ninf
  | .ninf, .num y => if 0 ≤ y then .ninf else .pinf
  | .pinf, .pinf => .nan
  | .pinf, .ninf => .nan
  | .ninf, .pinf => .nan
  | .ninf, .ninf => .nan

/-- numpy float subtraction; NaN propagates. -/
def PFloat.sub : PFloat → PFloat → PFloat
  | _, .nan => .nan
  | .nan, _ => .nan
  | .num x, .num y => .num (x - y)
  | .num _, .pinf => .ninf
  | .num _, .ninf => .pinf
  | .pinf, .num _ => .pinf
  | .ninf, .num _ => .ninf
  | .pinf, .pinf => .nan
  | .pinf, .ninf => .pinf
  | .ninf, .pinf => .ninf
  | .ninf, .ninf => .nan

/-! ## String utilities (models of Python string operations) -/

/-- Model of Python `str.strip()`: drop leading and trailing whitespace. -/
def pyStrip (s : String) : String :=
  String.mk (((s.toList.dropWhile Char.isWhitespace).reverse.dropWhile
    Char.isWhitespace).reverse)

/-- Value of an ASCII digit string read left to right (the value of
`int(ds)` for a nonempty all-digit string `ds`). -/
def digitsVal (cs : List Char) : Nat :=
  cs.foldl (fun n c => 10 * n + (c.toNat - '0'.toNat)) 0

/-- Model of `re.sub(r"\D", "", s)`: keep only the (ASCII) digits. -/
def stripNonDigits (s : String) : String :=
  String.mk (s.toList.filter Char.isDigit)

/-- Model of `s.startswith(p)` for a single-character p. -/
def startsWithChar (s : String) (c : Char) : Bool :=
  match s.toList with
  | [] => false
  | d :: _ => d = c

/-- Model of Python `int(s)` on an already-stripped string: optional sign
followed by at least one ASCII digit; `none` models a raised `ValueError`
that the source catches. -/
def pyInt (s : String) : Option Int :=
  match s.toList with
  | '-' :: rest =>
    if !rest.isEmpty && rest.all Char.isDigit then some (-(digitsVal rest : Int)) else none
  | '+' :: rest =>
    if !rest.isEmpty && rest.all Char.isDigit then some (digitsVal rest : Int) else none
  | l =>
    if !l.isEmpty && l.all Char.isDigit then some (digitsVal l : Int) else none

/-- Model of `pd.to_numeric(s, errors="coerce")` on a string cell:
an optional sign, an integer part and at most one decimal point; any
other residue coerces to `none` (NaN).  (Exponent notation does not occur
in the repository's inputs and is not modelled.) -/
def pyToNumeric (s : String) : Option ℚ :=
  let cs := s.toList
  let signed : ℚ × List Char :=
    match cs with
    | '-' :: rest => (-1, rest)
    | '+' :: rest => (1, rest)
    | _ => (1, cs)
  let sign := signed.1
  let body := signed.2
  let intPart := body.takeWhile (fun c => c ≠ '.')
  let rest := body.dropWhile (fun c => c ≠ '.')
  match rest with
  | [] =>
    if !intPart.isEmpty && intPart.all Char.isDigit then
      some (sign * (digitsVal intPart : ℚ))
    else none
  | _ :: frac =>
    if frac.contains '.' then none
    else if intPart.isEmpty && frac.isEmpty then none
    else if intPart.all Char.isDigit && frac.all Char.isDigit then
      some (sign * ((digitsVal intPart : ℚ) + (digitsVal frac : ℚ) / (10 : ℚ) ^ frac.length))
    else none

/-- Model of the numeric cleanup in `compile_master_csv.py`:
`.str.replace(",", "").str.strip()` followed by coercing `to_numeric`. -/
def cleanNumeric (s : String) : Option ℚ :=
  pyToNumeric (pyStrip (String.mk (s.toList.filter (fun c => c ≠ ','))))

/-! ## Era-year normalizer (`compile_master_csv.japanese_year_to_western`) -/

/-- `japanese_year_to_western` from `compile_master_csv.py`.  A label whose
stripped form starts with `S` (Showa) or `H` (Heisei) is converted to
`base + int(digits)`; if the prefixed label contains no digit, `int("")`
raises an uncaught `ValueError` (modelled as `.error`).  Otherwise the
label is parsed directly as an integer, with a caught `ValueError`
returning `None` (modelled as `.ok none`). -/
def japanese_year_to_western (j_year : String) : Except String (Option Int) :=
  let j := pyStrip j_year
  if startsWithChar j 'S' then
    let ds := (stripNonDigits j).toList
    if ds.isEmpty then .error "ValueError"
    else .ok (some (1925 + (digitsVal ds : Int)))
  else if startsWithChar j 'H' then
    let ds := (stripNonDigits j).toList
    if ds.isEmpty then .error "ValueError"
    else .ok (some (1988 + (digitsVal ds : Int)))
  else
    .ok (pyInt j)

/-! ## Assumption tables (`assumptions.py`) -/

/-- `SALARY_BY_AGE`: average annual earnings by age bracket, in JPY. -/
def SALARY_BY_AGE : List (String × ℚ) :=
  [("0-9", 0), ("10-19", 1500000), ("20-29", 3000000), ("30-39", 4000000),
   ("40-49", 5000000), ("50-59", 6000000), ("60-69", 3000000),
   ("70-79", 2500000), ("80+", 2500000)]

/-- `WORK_YEARS_LEFT`: expected remaining working years by age bracket. -/
def WORK_YEARS_LEFT : List (String × ℚ) :=
  [("0-9", 45), ("10-19", 40), ("20-29", 35), ("30-39", 25), ("40-49", 15),
   ("50-59", 7), ("60-69", 3), ("70-79", 0), ("80+", 0)]

/-- `SUICIDE_REDUCTION_RATE = 0.15`, the single global reduction constant. -/
def SUICIDE_REDUCTION_RATE : ℚ := 15 / 100

/-- `INTERVENTION_COST_BY_AGE`: hypothetical annual intervention cost by age. -/
def INTERVENTION_COST_BY_AGE : List (String × ℚ) :=
  [("0-9", 1000000000), ("10-19", 3000000000), ("20-29", 5000000000),
   ("30-39", 5000000000), ("40-49", 4000000000), ("50-59", 3000000000),
   ("60-69", 2000000000), ("70-79", 1000000000), ("80+", 500000000)]

/-- `assumptions.baseline_loss`: baseline loss without intervention. -/
def baseline_loss (annual_loss_yen : ℚ) : ℚ := annual_loss_yen

/-- `assumptions.reduced_loss`: expected loss after policy intervention. -/
def reduced_loss (annual_loss_yen : ℚ) : ℚ :=
  annual_loss_yen * (1 - SUICIDE_REDUCTION_RATE)

/-! ## Economic metric calculator (`suicide_prevention_report.py`) -/

/-- Lexicographic comparison of character lists by codepoint. -/
def charListLe : List Char → List Char → Bool
  | [], _ => true
  | _ :: _, [] => false
  | a :: as, b :: bs =>
    if a.toNat < b.toNat then true
    else if b.toNat < a.toNat then false
    else charListLe as bs

/-- Lexicographic string comparison (the key order of pandas `groupby`). -/
def strLe (a b : String) : Bool := charListLe a.toList b.toList

/-- Insert into a sorted list. -/
def insertSorted (le : α → α → Bool) (x : α) : List α → List α
  | [] => [x]
  | y :: ys => if le x y then x :: y :: ys else y :: insertSorted le x ys

/-- Insertion sort (a stable sort, used to model pandas' sorted group keys). -/
def sortByLe (le : α → α → Bool) (l : List α) : List α :=
  l.foldr (insertSorted le) []

/-- The distinct elements of a list (each key once; the relative order is
irrelevant because `groupSum` sorts the keys afterwards). -/
def uniqueKeys : List String → List String
  | [] => []
  | k :: rest => if rest.contains k then uniqueKeys rest else k :: uniqueKeys rest

/-- Model of `df.groupby('age_group', as_index=False)['suicides'].sum()`:
one row per distinct key, keys sorted, carrying the sum of the group. -/
def groupSum (rows : List (String × ℚ)) : List (String × ℚ) :=
  let keys := sortByLe strLe (uniqueKeys (rows.map Prod.fst))
  keys.map (fun k => (k, ((rows.filter (fun r => r.1 == k)).map Prod.snd).sum))

/-- One output row of `calculate_economic_impact` (the `df_policy` columns). -/
structure PolicyRow where
  age_group : String
  suicides : ℚ
  lifetime_earnings_yen : ℚ
  annual_loss_yen : ℚ
  loss_prevented : ℚ
  intervention_cost : PFloat
  roi : PFloat
  baseline_loss : ℚ
  reduced_loss : ℚ
  net_benefit : PFloat
deriving DecidableEq, Repr

/-- The per-bracket computation of `calculate_economic_impact`, parameterized
by the three assumption tables it reads (`SALARY_BY_AGE.get(a, 0)`,
`WORK_YEARS_LEFT.get(a, 0)` default to 0; `Series.map` of
`INTERVENTION_COST_BY_AGE` yields NaN for a missing key). -/
def impactRow (salary workYears cost : List (String × ℚ)) (a : String) (s : ℚ) :
    PolicyRow :=
  let le := (List.lookup a salary).getD 0 * (List.lookup a workYears).getD 0
  let al := s * le
  let lp := al * SUICIDE_REDUCTION_RATE
  let ic : PFloat :=
    match List.lookup a cost with
    | some c => .num c
    | none => .nan
  { age_group := a
    suicides := s
    lifetime_earnings_yen := le
    annual_loss_yen := al
    loss_prevented := lp
    intervention_cost := ic
    roi := PFloat.div (.num lp) ic
    baseline_loss := baseline_loss al
    reduced_loss := reduced_loss al
    net_benefit := PFloat.sub (.num lp) ic }

/-- `calculate_economic_impact` with the assumption tables as parameters:
aggregate suicides by bracket, then apply the per-bracket formulas. -/
def calcImpactWith (salary workYears cost : List (String × ℚ))
    (df_age : List (String × ℚ)) : List PolicyRow :=
  (groupSum df_age).map (fun r => impactRow salary workYears cost r.1 r.2)

/-- `calculate_economic_impact` from `suicide_prevention_report.py`, reading
the actual tables of `assumptions.py`. -/
def calculate_economic_impact (df_age : List (String × ℚ)) : List PolicyRow :=
  calcImpactWith SALARY_BY_AGE WORK_YEARS_LEFT INTERVENTION_COST_BY_AGE df_age

/-! ## Age-bracket dictionaries -/

/-- `age_mapping` from `compile_master_csv.py`: raw age-bin column labels to
canonical bracket labels. -/
def age_mapping : List (String × String) :=
  [("～19歳", "0-19"), ("20～29歳", "20-29"), ("30～39歳", "30-39"),
   ("40～49歳", "40-49"), ("50～59歳", "50-59"), ("60～69歳", "60-69"),
   ("70～79歳", "70-79"), ("80歳～", "80+"), ("不 詳", "Unknown"),
   ("不詳", "Unknown")]

/-- `age_map` from `convert_plotly_viz.py`: Japanese age-group cell labels to
canonical bracket labels. -/
def age_map : List (String × String) :=
  [("0～9歳", "0-9"), ("10～19歳", "10-19"), ("20～29歳", "20-29"),
   ("30～39歳", "30-39"), ("40～49歳", "40-49"), ("50～59歳", "50-59"),
   ("60～69歳", "60-69"), ("70～79歳", "70-79"), ("80歳以上", "80+"),
   ("不詳", "Unknown"), ("合計", "Total")]

/-- Model of `df['age_group'].map(m)` followed by `dropna()` on labelled
count rows: a label outside the dictionary becomes NaN and its row is then
dropped, so it never reaches an aggregation. -/
def normalizeAndDrop (m : List (String × String)) (rows : List (String × ℚ)) :
    List (String × ℚ) :=
  (rows.map (fun r => (List.lookup r.1 m, r.2))).filterMap
    (fun r => r.1.map (fun c => (c, r.2)))

/-! ## Wide-to-long reshaper (`compile_master_csv.py` / `clean_data.py`) -/

/-- One long row produced by `df.melt`: the identifier cells, the category
column label, and the (still raw string) cell value. -/
structure LongRow where
  ids : List String
  category : String
  value : String
deriving DecidableEq, Repr

/-- One long row after numeric cleanup: the value is parsed, `none` = NaN. -/
structure LongRowQ where
  ids : List String
  category : String
  value : Option ℚ
deriving DecidableEq, Repr

/-- Model of `df.melt(id_vars, value_vars=cats)`: a wide row is its
identifier cells paired with its category cells (aligned with `cats`).
pandas emits the output column-major: all rows for the first category
column, then all rows for the second, and so on. -/
def melt (cats : List String) (rows : List (List String × List String)) :
    List LongRow :=
  (List.range cats.length).flatMap (fun j =>
    rows.map (fun r => ⟨r.1, cats.getD j "", r.2.getD j ""⟩))

/-- The melt of `compile_master_csv.py` followed by its numeric cleanup of
the value column (strip thousands separators and whitespace, coerce,
non-numeric residue (NaN) keeps its row). -/
def meltClean (cats : List String) (rows : List (List String × List String)) :
    List LongRowQ :=
  (melt cats rows).map (fun r => ⟨r.ids, r.category, cleanNumeric r.value⟩)

/-! ## Header-row detection and per-file compilation (`compile_master_csv.py`) -/

/-- Whether `needle` occurs as a contiguous substring of `hay`. -/
def containsSub (needle : List Char) : List Char → Bool
  | [] => needle.isEmpty
  | c :: rest => needle.isPrefixOf (c :: rest) || containsSub needle rest

/-- The header marker scanned for: the first age-bin column label. -/
def headerMarker : List Char := "～19歳".toList

/-- Model of the header-detection loop: the index of the first row in which
some cell contains the marker `"～19歳"`. -/
def findHeaderRowIdx (grid : List (List String)) : Option Nat :=
  grid.findIdx? (fun row => row.any (fun cell => containsSub headerMarker cell.toList))

/-- One row of the final `processed_suicide_data.csv` table (the
`year`, `age_group`, `suicides` columns kept by the script; `none` = null). -/
structure OutRow where
  year : Option Int
  age_group : Option String
  suicides : Option ℚ
deriving DecidableEq, Repr

/-- The body of `compile_master_csv.py` on one already-parsed CSV cell grid:
locate the header row (raising `ValueError` when it is absent — `.error`),
re-read with that header, drop all-empty rows (`dropna(how="all")`; a NaN
cell is modelled as `""`), melt the age columns, normalize the bracket
labels, clean the counts, and convert the year column
(`japanese_year_to_western` may raise, which aborts this file). -/
def compileFile (grid : List (List String)) : Except String (List OutRow) :=
  match findHeaderRowIdx grid with
  | none => .error "Could not find header row with age bins."
  | some k =>
    let header := grid.getD k []
    let dataRows := (grid.drop (k + 1)).filter (fun row => row.any (fun c => !c.isEmpty))
    let records := dataRows.map (fun row => header.zip row)
    let age_cols := header.filter (fun c => (List.lookup c age_mapping).isSome)
    let id_vars := header.filter (fun c => (List.lookup c age_mapping).isNone)
    let yearCol : Option String :=
      if id_vars.contains "年" then some "年"
      else if id_vars.contains "年度" then some "年度"
      else none
    let melted := age_cols.flatMap (fun c =>
      records.map (fun rec => (rec, c, (List.lookup c rec).getD "")))
    melted.mapM (fun m =>
      let yearStr :=
        match yearCol with
        | some yc => (List.lookup yc m.1).getD ""
        | none =>
          ((m.1.filter (fun p => (List.lookup p.1 age_mapping).isNone)).headD ("", "")).2
      (japanese_year_to_western yearStr).map (fun y =>
        { year := y
          age_group := List.lookup m.2.1 age_mapping
          suicides := cleanNumeric m.2.2 }))

/-! ## PDF batch driver (`pdf_to_csv.py`) -/

/-- A table extracted from a PDF page: rows of optional cells. -/
abbrev PdfTable : Type := List (List (Option String))

/-- A page as seen by the extractor: either `extract_tables` raises
(caught, warned, page skipped) or it yields a list of tables. -/
abbrev PdfPage : Type := Except String (List PdfTable)

/-- A PDF file as seen by the driver: opening either raises (caught,
reported, file yields nothing) or yields a list of pages. -/
abbrev PdfFile : Type := Except String (List PdfPage)

/-- Tables written from one page: a failed page contributes nothing (its
exception is caught in the per-page `try`), an empty table is skipped. -/
def tablesOnPage (p : PdfPage) : Nat :=
  match p with
  | .error _ => 0
  | .ok tables => (tables.filter (fun t => !List.isEmpty t)).length

/-- `extract_tables_from_pdf`: the whole per-file body runs inside a `try`
whose handler only reports, so a failing file contributes zero tables and
never propagates an exception to the caller. -/
def extract_tables_from_pdf (f : PdfFile) : Nat :=
  match f with
  | .error _ => 0
  | .ok pages => (pages.map tablesOnPage).sum

/-- The batch loop of `pdf_to_csv.main` (with the default `--limit 0`,
i.e. no limit): every file is processed in order and contributes its own
table count. -/
def mainBatch (files : List PdfFile) : List Nat :=
  files.map extract_tables_from_pdf

/-! ## Composed pipeline (reshaping plus metrics) -/

/-- The preparation step of `suicide_prevention_report.load_and_prepare_data`
on the reshaped rows: keep the bracket/count pairs whose bracket mapped and
whose count parsed (`dropna`). -/
def prepareAge (rows : List OutRow) : List (String × ℚ) :=
  rows.filterMap (fun r =>
    match r.age_group, r.suicides with
    | some a, some s => some (a, s)
    | _, _ => none)

/-- The full reshaping-plus-metric pipeline on one raw cell grid: compile
the master table, prepare the age counts, compute the economic metrics. -/
def fullPipeline (grid : List (List String)) : Except String (List PolicyRow) :=
  (compileFile grid).map (fun rows => calculate_economic_impact (prepareAge rows))

/-! ## Helper lemmas -/

theorem mem_insertSorted (le : α → α → Bool) (x a : α) (l : List α) :
    a ∈ insertSorted le x l ↔ a = x ∨ a ∈ l := by
  induction l with
  | nil => simp [insertSorted]
  | cons y ys ih =>
    simp only [insertSorted]
    split
    · simp
    · simp [ih]
      tauto

theorem mem_sortByLe (le : α → α → Bool) (a : α) (l : List α) :
    a ∈ sortByLe le l ↔ a ∈ l := by
  induction l with
  | nil => simp [sortByLe]
  | cons y ys ih =>
    simp only [sortByLe, List.foldr] at *
    rw [mem_insertSorted]
    simp [ih]

/-- A character at the head of a string rules out the others as heads. -/
theorem startsWithChar_unique {s : String} {c d : Char}
    (h : startsWithChar s c = true) (hne : c ≠ d) : startsWithChar s d = false := by
  rcases hl : s.data with _ | ⟨e, t⟩ <;>
    simp only [startsWithChar, String.toList, hl, decide_eq_true_eq] at h ⊢
  subst h
  simp [hne]

/-- Every row of `calcImpactWith` is `impactRow` at some bracket and count. -/
theorem calcImpact_mem {salary workYears cost df : List (String × ℚ)}
    {r : PolicyRow} (h : r ∈ calcImpactWith salary workYears cost df) :
    ∃ a s, r = impactRow salary workYears cost a s := by
  rcases List.mem_map.mp h with ⟨p, _, hp⟩
  exact ⟨p.1, p.2, hp.symm⟩

/-- A key absent from the key column of an association list looks up to
`none`. -/
theorem lookup_none_of_not_mem {β : Type} (l : String) (m : List (String × β))
    (h : l ∉ m.map Prod.fst) : List.lookup l m = none := by
  induction m with
  | nil => rfl
  | cons p t ih =>
    simp only [List.map_cons, List.mem_cons] at h
    push_neg at h
    simp only [List.lookup]
    have : (l == p.1) = false := by
      cases hb : l == p.1
      · rfl
      · exact absurd (eq_of_beq hb) h.1
    rw [this]
    exact ih h.2

/-! ## Claim theorems -/

/-- Claim C4: a label whose stripped form carries a recognized era letter is
converted to the era base year (Showa 1925, Heisei 1988) plus the number
recovered by stripping non-digit characters; `"H6"` maps to 1994; a label
with no recognized era letter that parses directly as an integer returns
that integer. -/
theorem era_year_normalizer_bases :
    (∀ s : String, startsWithChar (pyStrip s) 'S' = true →
        (stripNonDigits (pyStrip s)).toList ≠ [] →
        japanese_year_to_western s =
          .ok (some (1925 + (digitsVal (stripNonDigits (pyStrip s)).toList : Int))))
    ∧ (∀ s : String, startsWithChar (pyStrip s) 'H' = true →
        (stripNonDigits (pyStrip s)).toList ≠ [] →
        japanese_year_to_western s =
          .ok (some (1988 + (digitsVal (stripNonDigits (pyStrip s)).toList : Int))))
    ∧ japanese_year_to_western "H6" = .ok (some 1994)
    ∧ (∀ (s : String) (n : Int),
        startsWithChar (pyStrip s) 'S' = false →
        startsWithChar (pyStrip s) 'H' = false →
        pyInt (pyStrip s) = some n →
        japanese_year_to_western s = .ok (some n)) := by
  refine ⟨?_, ?_, rfl, ?_⟩
  · intro s h1 h2
    have h2' : ¬(stripNonDigits (pyStrip s)).data = [] := h2
    simp [japanese_year_to_western, h1, List.isEmpty_iff, h2', String.toList]
  · intro s h1 h2
    have hS : startsWithChar (pyStrip s) 'S' = false :=
      startsWithChar_unique h1 (by decide)
    have h2' : ¬(stripNonDigits (pyStrip s)).data = [] := h2
    simp [japanese_year_to_western, hS, h1, List.isEmpty_iff, h2', String.toList]
  · intro s n h1 h2 h3
    simp [japanese_year_to_western, h1, h2, h3]

/-- Claim C4 witness: `"S63"` maps to 1988, `"2024"` parses directly. -/
theorem era_year_normalizer_bases_witness :
    japanese_year_to_western "S63" = .ok (some 1988)
    ∧ japanese_year_to_western "2024" = .ok (some 2024) := by
  constructor
  · have h := era_year_normalizer_bases.1 "S63" rfl (by decide)
    rw [h]; rfl
  · exact era_year_normalizer_bases.2.2.2 "2024" 2024 rfl rfl rfl

/-- Claim C5 counterexample: on the input `"S"` neither era-digit recovery
nor integer parsing succeeds, and the function raises an uncaught
`ValueError` (from `int("")`) instead of returning the null sentinel. -/
theorem era_normalizer_raises_on_bare_era_letter :
    (stripNonDigits (pyStrip "S")).toList = []
    ∧ pyInt (pyStrip "S") = none
    ∧ japanese_year_to_western "S" = .error "ValueError" :=
  ⟨rfl, rfl, rfl⟩

/-- Claim C5 (amended): for every input whose stripped form does not start
with a recognized era letter, the function returns without raising — the
null sentinel when integer parsing fails; it raises exactly on inputs that
start with `S` or `H` but contain no digit. -/
theorem era_normalizer_error_characterization :
    (∀ s : String, startsWithChar (pyStrip s) 'S' = false →
        startsWithChar (pyStrip s) 'H' = false →
        pyInt (pyStrip s) = none → japanese_year_to_western s = .ok none)
    ∧ (∀ s : String, japanese_year_to_western s = .error "ValueError" ↔
        ((startsWithChar (pyStrip s) 'S' = true ∨ startsWithChar (pyStrip s) 'H' = true)
          ∧ (stripNonDigits (pyStrip s)).toList = [])) := by
  constructor
  · intro s h1 h2 h3
    simp [japanese_year_to_western, h1, h2, h3]
  · intro s
    unfold japanese_year_to_western
    rcases hS : startsWithChar (pyStrip s) 'S' with _ | _
    · rcases hH : startsWithChar (pyStrip s) 'H' with _ | _
      · simp [hS, hH]
      · by_cases he : (stripNonDigits (pyStrip s)).data = []
        · simp [hS, hH, List.isEmpty_iff, he, String.toList]
        · simp [hS, hH, List.isEmpty_iff, he, String.toList]
    · by_cases he : (stripNonDigits (pyStrip s)).data = []
      · simp [hS, List.isEmpty_iff, he, String.toList]
      · simp [hS, List.isEmpty_iff, he, String.toList]

/-- Claim C5 witness: an unparseable label with no era letter returns the
null sentinel without raising; `"S"` is exactly an error input. -/
theorem era_normalizer_error_characterization_witness :
    japanese_year_to_western "不詳" = .ok none
    ∧ japanese_year_to_western "S" = .error "ValueError" := by
  constructor
  · exact era_normalizer_error_characterization.1 "不詳" rfl rfl rfl
  · exact (era_normalizer_error_characterization.2 "S").mpr ⟨Or.inl rfl, rfl⟩

/-- Claim C10: `baseline_loss` is the identity, `reduced_loss` scales by
`1 - SUICIDE_REDUCTION_RATE`, their difference is the loss prevented
(`x * SUICIDE_REDUCTION_RATE`), reduced loss plus loss prevented equals the
baseline loss exactly, a non-negative loss never grows under reduction, and
in every calculator row the reduced loss plus the loss prevented equals the
baseline (annual) loss. -/
theorem loss_scenario_algebra :
    (∀ x : ℚ, baseline_loss x = x)
    ∧ (∀ x : ℚ, reduced_loss x = x * (1 - SUICIDE_REDUCTION_RATE))
    ∧ (∀ x : ℚ, baseline_loss x - reduced_loss x = x * SUICIDE_REDUCTION_RATE)
    ∧ (∀ x : ℚ, reduced_loss x + x * SUICIDE_REDUCTION_RATE = baseline_loss x)
    ∧ (∀ x : ℚ, 0 ≤ x → reduced_loss x ≤ baseline_loss x)
    ∧ (∀ (salary workYears cost df : List (String × ℚ)) (r : PolicyRow),
        r ∈ calcImpactWith salary workYears cost df →
        r.baseline_loss = r.annual_loss_yen
          ∧ r.reduced_loss + r.loss_prevented = r.baseline_loss) := by
  refine ⟨fun x => rfl, fun x => rfl, ?_, ?_, ?_, ?_⟩
  · intro x
    unfold baseline_loss reduced_loss SUICIDE_REDUCTION_RATE
    ring
  · intro x
    unfold baseline_loss reduced_loss SUICIDE_REDUCTION_RATE
    ring
  · intro x hx
    unfold baseline_loss reduced_loss SUICIDE_REDUCTION_RATE
    nlinarith
  · intro salary workYears cost df r hr
    obtain ⟨a, s, rfl⟩ := calcImpact_mem hr
    refine ⟨rfl, ?_⟩
    simp only [impactRow]
    unfold baseline_loss reduced_loss SUICIDE_REDUCTION_RATE
    ring

/-- Claim C10 witness: the scenario identities at concrete inputs. -/
theorem loss_scenario_algebra_witness :
    reduced_loss 4 ≤ baseline_loss 4
    ∧ (impactRow [] [] [] "X" 1).reduced_loss + (impactRow [] [] [] "X" 1).loss_prevented
        = (impactRow [] [] [] "X" 1).baseline_loss := by
  constructor
  · exact loss_scenario_algebra.2.2.2.2.1 4 (by norm_num)
  · refine (loss_scenario_algebra.2.2.2.2.2 [] [] [] [("X", 1)]
      (impactRow [] [] [] "X" 1) ?_).2
    simp +decide [calcImpactWith, groupSum, uniqueKeys, sortByLe, insertSorted]

/-- Claim C1: every row of the economic metric calculator satisfies the
per-bracket formulas (lifetime earnings, annual loss, loss prevented at the
single global reduction rate 0.15, ROI as prevented loss over intervention
cost, net benefit as prevented loss minus intervention cost); the concrete
calculator is the parameterized one at the `assumptions.py` tables; and in
particular a bracket with suicide count 100, salary 5,000,000, work-years
15 and intervention cost 3,000,000,000 yields lifetime earnings 75,000,000,
annual loss 7,500,000,000, loss prevented 1,125,000,000 and ROI 0.375. -/
theorem economic_impact_bracket_formulas :
    (∀ (salary workYears cost df : List (String × ℚ)) (r : PolicyRow),
        r ∈ calcImpactWith salary workYears cost df →
        r.lifetime_earnings_yen =
            (List.lookup r.age_group salary).getD 0 * (List.lookup r.age_group workYears).getD 0
          ∧ r.annual_loss_yen = r.suicides * r.lifetime_earnings_yen
          ∧ r.loss_prevented = r.annual_loss_yen * SUICIDE_REDUCTION_RATE
          ∧ r.roi = PFloat.div (.num r.loss_prevented) r.intervention_cost
          ∧ r.net_benefit = PFloat.sub (.num r.loss_prevented) r.intervention_cost
          ∧ (∀ c : ℚ, List.lookup r.age_group cost = some c → c ≠ 0 →
              r.roi = .num (r.loss_prevented / c)))
    ∧ (∀ df, calculate_economic_impact df =
        calcImpactWith SALARY_BY_AGE WORK_YEARS_LEFT INTERVENTION_COST_BY_AGE df)
    ∧ SUICIDE_REDUCTION_RATE = 15 / 100
    ∧ (∀ (a : String) (salary workYears cost : List (String × ℚ)),
        List.lookup a salary = some 5000000 → List.lookup a workYears = some 15 →
        List.lookup a cost = some 3000000000 →
        ∀ r ∈ calcImpactWith salary workYears cost [(a, 100)],
          r.lifetime_earnings_yen = 75000000 ∧ r.annual_loss_yen = 7500000000
            ∧ r.loss_prevented = 1125000000 ∧ r.roi = PFloat.num (375 / 1000)) := by
  refine ⟨?_, fun df => rfl, rfl, ?_⟩
  · intro salary workYears cost df r hr
    obtain ⟨a, s, rfl⟩ := calcImpact_mem hr
    refine ⟨rfl, rfl, rfl, rfl, rfl, ?_⟩
    intro c hc hcne
    simp only [impactRow] at hc
    simp [impactRow, hc, PFloat.div, hcne]
  · intro a salary workYears cost h1 h2 h3 r hr
    have hgs : groupSum [(a, 100)] = [(a, (100 : ℚ) + 0)] := by
      simp [groupSum, uniqueKeys, sortByLe, insertSorted, List.filter]
    rw [calcImpactWith, hgs] at hr
    simp only [List.map_cons, List.map_nil, List.mem_singleton] at hr
    subst hr
    refine ⟨?_, ?_, ?_, ?_⟩ <;>
      simp [impactRow, h1, h2, h3, SUICIDE_REDUCTION_RATE, PFloat.div] <;>
      norm_num

/-- Claim C1 witness: the formulas at the real tables for bracket `40-49`
with 100 suicides, and the spec's concrete instance on a one-bracket table
carrying salary 5,000,000, work-years 15 and cost 3,000,000,000. -/
theorem economic_impact_bracket_formulas_witness :
    ((impactRow SALARY_BY_AGE WORK_YEARS_LEFT INTERVENTION_COST_BY_AGE "40-49" 100).annual_loss_yen
      = (impactRow SALARY_BY_AGE WORK_YEARS_LEFT INTERVENTION_COST_BY_AGE "40-49" 100).suicides *
        (impactRow SALARY_BY_AGE WORK_YEARS_LEFT INTERVENTION_COST_BY_AGE "40-49" 100).lifetime_earnings_yen)
    ∧ (impactRow [("X", 5000000)] [("X", 15)] [("X", 3000000000)] "X" 100).roi
      = PFloat.num (375 / 1000) := by
  constructor
  · exact (economic_impact_bracket_formulas.1 SALARY_BY_AGE WORK_YEARS_LEFT
      INTERVENTION_COST_BY_AGE [("40-49", 100)]
      (impactRow SALARY_BY_AGE WORK_YEARS_LEFT INTERVENTION_COST_BY_AGE "40-49" 100)
      (by simp +decide [calcImpactWith, groupSum, uniqueKeys, sortByLe, insertSorted])).2.1
  · refine (economic_impact_bracket_formulas.2.2.2 "X"
      [("X", 5000000)] [("X", 15)] [("X", 3000000000)] rfl rfl rfl
      (impactRow [("X", 5000000)] [("X", 15)] [("X", 3000000000)] "X" 100) ?_).2.2.2
    simp +decide [calcImpactWith, groupSum, uniqueKeys, sortByLe, insertSorted]

/-- Claim C2: in every calculator row whose intervention cost is zero or
missing (NaN), the ROI is a defined non-finite value — NaN when the cost is
missing, and one of `+inf`, `-inf`, NaN when the cost is zero — never a
finite number; the (total) computation raises no exception. -/
theorem roi_undefined_on_zero_or_missing_cost :
    ∀ (salary workYears cost df : List (String × ℚ)) (r : PolicyRow),
      r ∈ calcImpactWith salary workYears cost df →
      (List.lookup r.age_group cost = none →
        r.intervention_cost = PFloat.nan ∧ r.roi = PFloat.nan)
      ∧ ((r.intervention_cost = PFloat.num 0 ∨ r.intervention_cost = PFloat.nan) →
          (r.roi = PFloat.pinf ∨ r.roi = PFloat.ninf ∨ r.roi = PFloat.nan)
            ∧ ∀ q : ℚ, r.roi ≠ PFloat.num q) := by
  intro salary workYears cost df r hr
  obtain ⟨a, s, rfl⟩ := calcImpact_mem hr
  constructor
  · intro hc
    simp only [impactRow] at hc ⊢
    rw [hc]
    exact ⟨rfl, rfl⟩
  · intro hic
    have hroi : (impactRow salary workYears cost a s).roi =
        PFloat.div (.num ((impactRow salary workYears cost a s).loss_prevented))
          ((impactRow salary workYears cost a s).intervention_cost) := rfl
    rcases hic with h0 | hnan
    · rw [hroi, h0]
      set lp := (impactRow salary workYears cost a s).loss_prevented with hlp
      have : PFloat.div (.num lp) (.num 0) =
          if 0 < lp then PFloat.pinf else if lp < 0 then PFloat.ninf else PFloat.nan := by
        simp [PFloat.div]
      rw [this]
      rcases lt_trichotomy lp 0 with h | h | h
      · rw [if_neg (by linarith), if_pos h]
        exact ⟨Or.inr (Or.inl rfl), fun q => by simp⟩
      · rw [if_neg (by simp [h]), if_neg (by simp [h])]
        exact ⟨Or.inr (Or.inr rfl), fun q => by simp⟩
      · rw [if_pos h]
        exact ⟨Or.inl rfl, fun q => by simp⟩
    · rw [hroi, hnan]
      exact ⟨Or.inr (Or.inr rfl), fun q => by simp [PFloat.div]⟩

/-- Claim C2 witness: a bracket missing from the cost table has NaN ROI,
and a zero cost gives an infinite ROI — neither is a finite number. -/
theorem roi_undefined_on_zero_or_missing_cost_witness :
    (impactRow [] [] [] "X" 1).roi = PFloat.nan
    ∧ ((impactRow [("X", 5000000)] [("X", 15)] [("X", 0)] "X" 1).roi = PFloat.pinf
        ∨ (impactRow [("X", 5000000)] [("X", 15)] [("X", 0)] "X" 1).roi = PFloat.ninf
        ∨ (impactRow [("X", 5000000)] [("X", 15)] [("X", 0)] "X" 1).roi = PFloat.nan) := by
  constructor
  · exact ((roi_undefined_on_zero_or_missing_cost [] [] [] [("X", 1)]
      (impactRow [] [] [] "X" 1)
      (by simp +decide [calcImpactWith, groupSum, uniqueKeys, sortByLe, insertSorted])).1
      rfl).2
  · exact ((roi_undefined_on_zero_or_missing_cost [("X", 5000000)] [("X", 15)] [("X", 0)]
      [("X", 1)] (impactRow [("X", 5000000)] [("X", 15)] [("X", 0)] "X" 1)
      (by simp +decide [calcImpactWith, groupSum, uniqueKeys, sortByLe, insertSorted])).2
      (Or.inl rfl)).1

/-- Claim C3 counterexample: the bracket `0-19` (present in the suicide
counts, absent from every assumption table) gets intervention cost NaN from
`Series.map`, not the claimed explicit default 0. -/
theorem missing_cost_not_defaulted_to_zero :
    List.lookup "0-19" INTERVENTION_COST_BY_AGE = none
    ∧ (calculate_economic_impact [("0-19", 10)]).map (fun r => r.intervention_cost)
        = [PFloat.nan]
    ∧ PFloat.nan ≠ PFloat.num 0 := by
  refine ⟨rfl, ?_, by simp⟩
  simp +decide [calculate_economic_impact, calcImpactWith, groupSum, uniqueKeys,
    sortByLe, insertSorted, impactRow]

/-- Claim C3 (amended): a bracket missing from the salary or work-years
table uses the explicit default 0 (`dict.get(a, 0)`), so its lifetime
earnings are 0 and the computation proceeds; a bracket missing from the
intervention-cost table instead gets a null (NaN) cost — not 0 — making its
cost, ROI and net benefit null; in both cases the (total) computation does
not fail. -/
theorem missing_assumption_defaults :
    ∀ (salary workYears cost df : List (String × ℚ)) (r : PolicyRow),
      r ∈ calcImpactWith salary workYears cost df →
      r.lifetime_earnings_yen =
          (List.lookup r.age_group salary).getD 0 * (List.lookup r.age_group workYears).getD 0
        ∧ (List.lookup r.age_group salary = none ∨ List.lookup r.age_group workYears = none →
            r.lifetime_earnings_yen = 0)
        ∧ (List.lookup r.age_group cost = none →
            r.intervention_cost = PFloat.nan ∧ r.roi = PFloat.nan
              ∧ r.net_benefit = PFloat.nan) := by
  intro salary workYears cost df r hr
  obtain ⟨a, s, rfl⟩ := calcImpact_mem hr
  refine ⟨rfl, ?_, ?_⟩
  · intro hmiss
    rcases hmiss with h | h <;> simp only [impactRow] at h <;> simp [impactRow, h]
  · intro hc
    simp only [impactRow] at hc ⊢
    rw [hc]
    exact ⟨rfl, rfl, rfl⟩

/-- Claim C3 witness: a bracket absent from all tables computes through,
with defaulted-to-zero earnings and a NaN (not zero) cost. -/
theorem missing_assumption_defaults_witness :
    (impactRow [] [] [] "0-19" 10).lifetime_earnings_yen = 0
    ∧ (impactRow [] [] [] "0-19" 10).intervention_cost = PFloat.nan := by
  have h := missing_assumption_defaults [] [] [] [("0-19", 10)]
    (impactRow [] [] [] "0-19" 10)
    (by simp +decide [calcImpactWith, groupSum, uniqueKeys, sortByLe, insertSorted])
  exact ⟨h.2.1 (Or.inl rfl), (h.2.2 rfl).1⟩

/-- Claim C7: both age-bracket dictionaries are total over their raw-label
vocabulary (every key looks up to exactly one canonical label), any label
outside the vocabulary maps to null (`none`), and a null-bracket row is
dropped by the map-then-dropna step before aggregation rather than being
kept with a zero count. -/
theorem age_bracket_mapping_totality :
    (∀ l ∈ age_mapping.map Prod.fst, (List.lookup l age_mapping).isSome = true)
    ∧ (∀ l ∈ age_map.map Prod.fst, (List.lookup l age_map).isSome = true)
    ∧ (∀ l : String, l ∉ age_mapping.map Prod.fst → List.lookup l age_mapping = none)
    ∧ (∀ l : String, l ∉ age_map.map Prod.fst → List.lookup l age_map = none)
    ∧ (∀ (m : List (String × String)) (rows : List (String × ℚ)) (l : String) (v : ℚ),
        List.lookup l m = none →
        normalizeAndDrop m ((l, v) :: rows) = normalizeAndDrop m rows) := by
  refine ⟨by decide, by decide, ?_, ?_, ?_⟩
  · exact fun l h => lookup_none_of_not_mem l age_mapping h
  · exact fun l h => lookup_none_of_not_mem l age_map h
  · intro m rows l v h
    simp [normalizeAndDrop, h]

/-- Claim C7 witness: a known variant maps, an unknown label nulls out and
its row is excluded from the normalized table. -/
theorem age_bracket_mapping_totality_witness :
    (List.lookup "不詳" age_mapping).isSome = true
    ∧ List.lookup "garbage" age_mapping = none
    ∧ normalizeAndDrop age_map [("garbage", 7)] = normalizeAndDrop age_map [] := by
  refine ⟨?_, ?_, ?_⟩
  · exact age_bracket_mapping_totality.1 "不詳" (by decide)
  · exact age_bracket_mapping_totality.2.2.1 "garbage" (by decide)
  · exact age_bracket_mapping_totality.2.2.2.2 age_map [] "garbage" 7 rfl

/-- Claim C8: a file whose header row cannot be located fails alone — the
compile step for that file reports the error and yields no output — and in
the batch driver a malformed file contributes zero tables while every other
file in the batch is still processed: the batch result for
`pre ++ bad :: post` is exactly the results for `pre`, then `0`, then the
results for `post`, and every file in a batch gets a result. -/
theorem per_file_failure_isolation :
    (∀ grid : List (List String), findHeaderRowIdx grid = none →
        compileFile grid = .error "Could not find header row with age bins.")
    ∧ (∀ (pre post : List PdfFile) (e : String),
        mainBatch (pre ++ (Except.error e :: post)) = mainBatch pre ++ 0 :: mainBatch post)
    ∧ (∀ files : List PdfFile, (mainBatch files).length = files.length) := by
  refine ⟨?_, ?_, ?_⟩
  · intro grid h
    simp [compileFile, h]
  · intro pre post e
    simp [mainBatch, extract_tables_from_pdf]
  · intro files
    simp [mainBatch]

/-- Claim C8 witness: a grid with no age-bin header fails with the reported
error, and a batch with a malformed middle file still processes both
neighbours. -/
theorem per_file_failure_isolation_witness :
    compileFile [["no", "header"], ["at", "all"]]
        = .error "Could not find header row with age bins."
    ∧ mainBatch [Except.ok [], Except.error "bad", Except.ok []]
        = mainBatch [Except.ok []] ++ 0 :: mainBatch [Except.ok []] := by
  constructor
  · exact per_file_failure_isolation.1 [["no", "header"], ["at", "all"]] rfl
  · exact per_file_failure_isolation.2.1 [Except.ok []] [Except.ok []] "bad"

/-- Claim C9: every stage of the embedded pipeline is a pure function of
its input tables, so two runs on equal inputs give equal outputs — the
per-file compile step, the economic metric calculator, and the composed
reshaping-plus-metric pipeline are all two-run deterministic. -/
theorem pipeline_two_run_determinism :
    ∀ (grid₁ grid₂ : List (List String)) (df₁ df₂ : List (String × ℚ)),
      grid₁ = grid₂ → df₁ = df₂ →
      compileFile grid₁ = compileFile grid₂
        ∧ calculate_economic_impact df₁ = calculate_economic_impact df₂
        ∧ fullPipeline grid₁ = fullPipeline grid₂ := by
  intro grid₁ grid₂ df₁ df₂ hg hd
  subst hg
  subst hd
  exact ⟨rfl, rfl, rfl⟩

/-- Claim C9 witness: a second run on a byte-identical grid reproduces the
first run's output. -/
theorem pipeline_two_run_determinism_witness :
    fullPipeline [["年", "～19歳"], ["H6", "56"]]
      = fullPipeline [["年", "～19歳"], ["H6", "56"]] :=
  (pipeline_two_run_determinism [["年", "～19歳"], ["H6", "56"]]
    [["年", "～19歳"], ["H6", "56"]] [] [] rfl rfl).2.2

/-- Concatenating equal-length chunks multiplies the length. -/
theorem length_flatMap_const {α β : Type} (f : α → List β) (R : ℕ)
    (l : List α) (h : ∀ a ∈ l, (f a).length = R) :
    (l.flatMap f).length = l.length * R := by
  induction l with
  | nil => simp
  | cons a t ih =>
    simp only [List.flatMap_cons, List.length_append, List.length_cons]
    rw [h a (List.mem_cons_self a t), ih (fun x hx => h x (List.mem_cons_of_mem a hx))]
    ring

/-- Indexing into a concatenation of equal-length chunks: position
`n * R + i` lands at offset `i` of chunk `n`. -/
theorem getElem?_flatMap_const {α β : Type} (f : α → List β) (R : ℕ) :
    ∀ (l : List α) (n i : ℕ) (hn : n < l.length),
      (∀ a ∈ l, (f a).length = R) → i < R →
      (l.flatMap f)[n * R + i]? = (f (l.get ⟨n, hn⟩))[i]? := by
  intro l
  induction l with
  | nil => intro n i hn _ _; simp at hn
  | cons a t ih =>
    intro n i hn hall hi
    have hfa : (f a).length = R := hall a (List.mem_cons_self a t)
    match n with
    | 0 =>
      simp only [List.flatMap_cons, Nat.zero_mul, Nat.zero_add]
      rw [List.getElem?_append, if_pos (by rw [hfa]; exact hi)]
      rfl
    | Nat.succ m =>
      simp only [List.flatMap_cons]
      have hcond : ¬ (Nat.succ m * R + i < (f a).length) := by
        rw [hfa]
        push_neg
        calc R ≤ Nat.succ m * R := Nat.le_mul_of_pos_left R (Nat.succ_pos m)
        _ ≤ Nat.succ m * R + i := Nat.le_add_right _ _
      have harith : Nat.succ m * R + i = (f a).length + (m * R + i) := by
        rw [hfa, Nat.succ_mul]; ring
      rw [List.getElem?_append, if_neg hcond, harith, Nat.add_sub_cancel_left]
      exact ih m i (Nat.lt_of_succ_lt_succ hn)
        (fun x hx => hall x (List.mem_cons_of_mem a hx)) hi

/-- Claim C6: melting a wide table with K category columns and R data rows
yields exactly `K * R` long rows; the row at output position
`j * R + i` (pandas emits the melt column-major) carries the identifiers of
input row `i`, category column `j`, and the numeric coercion of the
original cell `(i, j)` — so every output value is traceable to its origin
and a row is retained even when its value coerces to null; the coercion
strips thousands separators and whitespace (`"1,234"` parses to 1234) and
turns non-numeric residue into null (`"不詳"` parses to `none`). -/
theorem melt_shape_and_numeric_coercion :
    (∀ (cats : List String) (rows : List (List String × List String)),
        (meltClean cats rows).length = cats.length * rows.length)
    ∧ (∀ (cats : List String) (rows : List (List String × List String))
        (j i : ℕ) (hj : j < cats.length) (hi : i < rows.length),
        (meltClean cats rows)[j * rows.length + i]? =
          some ⟨(rows.get ⟨i, hi⟩).1, cats.get ⟨j, hj⟩,
                cleanNumeric ((rows.get ⟨i, hi⟩).2.getD j "")⟩)
    ∧ cleanNumeric "1,234" = some 1234
    ∧ cleanNumeric "不詳" = none := by
  refine ⟨?_, ?_, ?_, rfl⟩
  · intro cats rows
    unfold meltClean melt
    rw [List.length_map,
      length_flatMap_const _ rows.length _ (fun a _ => List.length_map _ _)]
    simp
  · intro cats rows j i hj hi
    unfold meltClean melt
    rw [List.getElem?_map,
      getElem?_flatMap_const _ rows.length (List.range cats.length) j i
        (by simpa using hj) (fun a _ => List.length_map _ _) hi]
    simp [List.getElem?_map, List.getElem?_eq_getElem, hi, hj, List.get_eq_getElem,
      List.getElem_range, List.getD_eq_getElem?_getD]
  · simp +decide [cleanNumeric, pyToNumeric, pyStrip, digitsVal]

/-- Claim C6 witness: a 2-category, 1-row table melts to `2 * 1` rows, and
the output row for column 2 carries the null coercion of `"不詳"` while the
row itself is retained. -/
theorem melt_shape_and_numeric_coercion_witness :
    (meltClean ["A", "B"] [(["2020"], ["1,234", "不詳"])]).length = 2 * 1
    ∧ (meltClean ["A", "B"] [(["2020"], ["1,234", "不詳"])])[1 * 1 + 0]?
        = some ⟨["2020"], "B", none⟩ := by
  constructor
  · exact melt_shape_and_numeric_coercion.1 ["A", "B"] [(["2020"], ["1,234", "不詳"])]
  · have h := melt_shape_and_numeric_coercion.2.1 ["A", "B"]
      [(["2020"], ["1,234", "不詳"])] 1 0 (by decide) (by decide)
    exact h

end SuicidePipeline
